import Mathlib

/-!
Verification development for the mega-gofilebot repository (src/main.py).

The source is a Telegram bot that relays a Mega link to Gofile.  This file
gives a shallow embedding of the parts of `main.py` that the verified
properties are about:

* `create_progress_bar` (main.py lines 38-43): the pure progress-bar renderer;
* the in-memory admin store `ADMINS` / `ADDITIONAL_ADMINS` (lines 34-36) and
  the handlers `add_admin` (113-167) and `remove_admin` (169-223);
* the authorization check `user_id in ADMINS` (line 230);
* the Mega-link validation (line 250);
* the transfer pipeline of `handle_gofile` (lines 225-452): metadata fetch,
  download worker thread + polling loop with rate-limited message edits,
  the `downloaded == -1` error gate, server fetch, upload worker thread and
  its wait loop, and the final upload-response handling.

Concurrency is linearized: a worker thread's effects are modelled as
happening after the polling loop's per-sample writes, and mutual exclusion
is implicit in this sequential presentation.  Two Python facts shape the
worker models.  First, `lock` (main.py line 283) is an `asyncio.Lock`,
which has no synchronous context-manager protocol, so the plain
`with lock:` statements inside the worker threads (lines 295 and 390)
raise and kill the thread: the except branches die before the sentinel
writes (lines 296, 391) and before the upload-side completion signal
(line 392).  The success-path `download_complete.set()` (line 292) does
run (setting an asyncio.Event from a foreign thread only flips its flag,
which the handler polls with `is_set()`).  Second, `threading.Thread` has
no `result()` method, so line 424 raises `AttributeError` and lines
425-438 are unreachable.  Python's `int(a / b * 100)` (float division then
truncation) is modelled as natural-number division `a * 100 / b`; over the
sampled scenarios below the two disagree only at a few sample points whose
percent is not a multiple of 5 under either arithmetic, so every edit
decision, and hence every theorem here, is the same under both.
-/

/-- Identities (Telegram user ids) are integers, as in the source. -/
abbrev Ident := Int

/-- The mutable admin storage of main.py lines 34-36:
`ADMINS = {MAIN_ADMIN_ID}` and `ADDITIONAL_ADMINS = set()`.
`admins` is the full access set consulted by the bot, `additional` the
delegated ("regular") admins managed by the main admin. -/
structure AdminState where
  admins : Finset Ident
  additional : Finset Ident
  deriving DecidableEq

/-- The state at process start (main.py lines 34-36): `ADMINS`
holds exactly the main admin and `ADDITIONAL_ADMINS` is empty. -/
def initialAdminState (mainId : Ident) : AdminState :=
  { admins := {mainId}, additional := ∅ }

/-- The authorization check used by `start` (line 76) and `handle_gofile`
(line 230): membership of the user id in `ADMINS`. -/
def isAuthorized (s : AdminState) (i : Ident) : Bool :=
  decide (i ∈ s.admins)

/-- The distinct user-visible outcomes of the `/admin` handler
`add_admin` (main.py lines 113-167), one per reply branch. -/
inductive AddAdminResult where
  | denied       -- line 119: requester is not the main admin
  | usage        -- line 129: no argument given
  | alreadyMain  -- line 140: target is the main admin
  | alreadyAdmin -- line 144: target already a regular admin
  | added        -- lines 151-152: target inserted
  deriving DecidableEq, Repr

/-- Shallow embedding of `add_admin` (main.py lines 113-167).  The argument
is `none` when `/admin` was sent with no id (the `not context.args` branch);
integer parsing of the argument is outside this model.  Branch order follows
the source: requester check (119), argument check (129), target = main
(140), target already present (144), then insertion into both sets
(151-152). -/
def add_admin (mainId requester : Ident) (arg : Option Ident) (s : AdminState) :
    AddAdminResult × AdminState :=
  if requester ≠ mainId then (AddAdminResult.denied, s)
  else
    match arg with
    | none => (AddAdminResult.usage, s)
    | some target =>
      if target = mainId then (AddAdminResult.alreadyMain, s)
      else if target ∈ s.additional then (AddAdminResult.alreadyAdmin, s)
      else (AddAdminResult.added,
            { admins := insert target s.admins,
              additional := insert target s.additional })

/-- The distinct user-visible outcomes of the `/remove` handler
`remove_admin` (main.py lines 169-223). -/
inductive RemoveAdminResult where
  | denied           -- line 175: requester is not the main admin
  | usage            -- line 185: no argument given
  | cannotRemoveMain -- line 196: target is the main admin
  | notAdmin         -- line 200: target not a regular admin
  | removed          -- lines 207-208: target erased
  deriving DecidableEq, Repr

/-- Shallow embedding of `remove_admin` (main.py lines 169-223), with the
same conventions as `add_admin`.  Branch order follows the source:
requester check (175), argument check (185), target = main (196), target
absent (200), then removal from both sets (207-208). -/
def remove_admin (mainId requester : Ident) (arg : Option Ident) (s : AdminState) :
    RemoveAdminResult × AdminState :=
  if requester ≠ mainId then (RemoveAdminResult.denied, s)
  else
    match arg with
    | none => (RemoveAdminResult.usage, s)
    | some target =>
      if target = mainId then (RemoveAdminResult.cannotRemoveMain, s)
      else if target ∉ s.additional then (RemoveAdminResult.notAdmin, s)
      else (RemoveAdminResult.removed,
            { admins := s.admins.erase target,
              additional := s.additional.erase target })

/-- The intended shape of the admin store: the full access set `ADMINS` is
the main admin together with the delegated admins, and the main admin is
never itself a member of `ADDITIONAL_ADMINS`. -/
def AdminInv (mainId : Ident) (s : AdminState) : Prop :=
  s.admins = {mainId} ∪ s.additional ∧ mainId ∉ s.additional

/-- Shallow embedding of `create_progress_bar` (main.py lines 38-43).
The source computes `filled = int(width * percentage / 100)` (exact for the
percentages that arise), repeats a filled-star glyph `filled` times and an
empty-star glyph `width - filled` times, and wraps the bar as
`[<glyphs>] <percentage>%`.  The source's default `width=20` is passed
explicitly by callers of this embedding. -/
def create_progress_bar (percentage : Nat) (width : Nat) : String :=
  let filled := width * percentage / 100
  let empty := width - filled
  let progress := String.mk (List.replicate filled '⭐' ++ List.replicate empty '☆')
  "[" ++ progress ++ "] " ++ toString percentage ++ "%"

/-- Python's `str.startswith`, over the character lists of the strings. -/
def strStartsWith (s p : String) : Bool :=
  p.toList.isPrefixOf s.toList

/-- The Mega-link validation of `handle_gofile` (main.py line 250):
the link must start with one of the two accepted URL prefixes. -/
def megaLinkValid (link : String) : Bool :=
  strStartsWith link "https://mega.nz/" || strStartsWith link "https://mega.io/"

/-- Result of the download worker thread `download_thread` (main.py lines
285-297).  `sentinelWritten` records whether the except branch's
`downloaded = -1` (line 296) executed; `completeSet` records whether
`download_complete.set()` ran (lines 292 or 297). -/
structure DlWorkerResult where
  sentinelWritten : Bool
  completeSet : Bool
  deriving DecidableEq

/-- The download worker thread (main.py lines 285-297) as a function of
whether `mega.download_url` succeeds.  On success, line 292's `set()`
runs.  On failure, the except branch reaches `with lock:` at line 295,
which raises (an `asyncio.Lock` has no synchronous context-manager
protocol) and kills the thread: neither the sentinel write at line 296
nor the `set()` at line 297 ever executes. -/
def download_thread (dlOk : Bool) : DlWorkerResult :=
  if dlOk then { sentinelWritten := false, completeSet := true }
  else { sentinelWritten := false, completeSet := false }

/-- One phase's wait loop skeleton (`while not event.is_set(): await
asyncio.sleep(1) ...`, main.py lines 307 and 403), abstracted to its exit
behaviour: the loop terminates exactly when the completion event is
(eventually) set.  `fuel` bounds the number of polls we observe; `none`
means the loop was still running after `fuel` polls. -/
def waitLoop (completeSet : Bool) : Nat → Option Unit
  | 0 => none
  | Nat.succ n => if completeSet then some () else waitLoop completeSet n

/-- The body of the download polling loop (main.py lines 306-328), applied
to the successive directory-size samples the poller observes (line 309's
`current_size`, once per second while the event is unset).  State carried:
`last_update` (line 306) and the shared `downloaded` counter (line 281).
Per sample the source writes `downloaded = current_size` (line 314), and if
`total > 0` computes `progress = min(100, int(downloaded / total * 100))`
(line 317) and edits the status message only when
`progress != last_update and progress % 5 == 0` (line 320), then sets
`last_update = progress` (line 328).  Returns the list of percents at which
an edit was emitted, and the final value of `downloaded`. -/
def downloadPollGo (total : Nat) : List Nat → Nat → Nat → List Nat × Nat
  | [], _, downloaded => ([], downloaded)
  | size :: rest, last_update, _ =>
    let downloaded := size
    if total > 0 then
      let progress := min 100 (downloaded * 100 / total)
      if progress ≠ last_update ∧ progress % 5 = 0 then
        let r := downloadPollGo total rest progress downloaded
        (progress :: r.1, r.2)
      else downloadPollGo total rest last_update downloaded
    else downloadPollGo total rest last_update downloaded

/-- The download polling loop started from its initial state:
`last_update = 0` (main.py line 306) and `downloaded = 0` (line 281). -/
def downloadPoll (total : Nat) (samples : List Nat) : List Nat × Nat :=
  downloadPollGo total samples 0 0

/-- The value of the shared `downloaded` counter as the `downloaded == -1`
gate (main.py line 331) would read it: `-1` if the worker's sentinel write
at line 296 executed (it never does, that line being unreachable —
`sentinelWritten` is always false), otherwise the last directory-size
sample written by the poller (0 if it never ran). -/
def downloadedFinal (dlOk : Bool) (total : Nat) (samples : List Nat) : Int :=
  if (download_thread dlOk).sentinelWritten then -1
  else ((downloadPoll total samples).2 : Int)

/-- What the network does when the upload worker posts the file
(main.py lines 380-387): either `requests.post`, `raise_for_status` or
`response.json()` raises (carrying a message), or a JSON body comes back,
modelled by its `status` field, optional `data.downloadPage` and optional
`data.message`. -/
inductive UploadNet where
  | raised (msg : String)
  | body (status : String) (downloadPage : Option String) (message : Option String)
  deriving DecidableEq

/-- Result of the upload worker thread `upload_thread` (main.py lines
374-393): whether `upload_complete.set()` ran, and how the thread function
itself terminated — the returned JSON body (line 387) or the exception the
thread died with.  Nothing in the handler can retrieve `outcome`: a
`threading.Thread` carries no result handle. -/
structure UpWorkerResult where
  completeSet : Bool
  outcome : Except String (String × Option String × Option String)

/-- The upload worker thread (main.py lines 374-393) as a function of the
network's behaviour.  On success the JSON body is returned (line 387) with
no completion signal — the only `upload_complete.set()` is at line 392,
inside the except branch.  On an exception the except branch reaches
`with lock:` at line 390, which raises (an `asyncio.Lock` has no
synchronous context-manager protocol) and kills the thread before the
`uploaded = -1` write at 391 (which, lacking a `nonlocal` declaration,
would only have bound a local name anyway), before the `set()` at 392 and
before the `raise e` at 393 — so the completion event is never set on
failure either; we record the original error message as the terminal
exception, no observer existing in either case. -/
def upload_thread (net : UploadNet) : UpWorkerResult :=
  match net with
  | UploadNet.raised msg =>
    { completeSet := false, outcome := Except.error msg }
  | UploadNet.body st page msg =>
    { completeSet := false, outcome := Except.ok (st, page, msg) }

/-- The outbound I/O calls of the transfer pipeline, in program order:
`mega.get_public_file` (main.py line 275), `mega.download_url` via the
download thread (line 290), the Gofile servers request (line 348), and the
upload POST via the upload thread (line 380). -/
inductive NetEffect where
  | metaFetch
  | dlStart
  | serverFetch
  | upPost
  deriving DecidableEq

/-- The environment one `/gofile` invocation runs against: the metadata
call's result (declared size and name, or an exception), whether the Mega
download succeeds, the directory-size samples the download poller observes,
the Gofile servers call's result, the local file's size, and the upload
POST's behaviour. -/
structure World where
  meta : Except String (Nat × String)
  dlOk : Bool
  dlSamples : List Nat
  server : Except String String
  fileSize : Nat
  upload : UploadNet

/-- The user-visible terminal outcomes of `handle_gofile`
(main.py lines 225-452), one per reply/edit branch. -/
inductive GofileOutcome where
  | accessDenied                       -- line 231
  | usage                              -- line 241
  | invalidLink                        -- line 251
  | errorMsg (e : String)              -- lines 441-452 (the except branch)
  | success (fileName url : String)    -- lines 430-438 (dead code: line 424
                                       -- raises before it can run)
  deriving DecidableEq

/-- The try block of `handle_gofile` (main.py lines 259-452) over a given
environment.  Stages in source order: metadata fetch (275); download worker
+ wait loop (285-307) and the `downloaded == -1` gate (331-333, raising
"Download failed" into the except branch); Gofile server fetch (348-351);
upload worker + wait loop (374-406); then line 424's
`upload_task.result()` — a `threading.Thread` has no `result` method, so
that line raises `AttributeError` into the handler's except branch, and
the `status != "ok"` check and `data.downloadPage` extraction of lines
425-438 are unreachable.  Returns `none` when the polling loops are still
running after `fuel` polls, together with the I/O calls made so far. -/
def gofileTry (w : World) (fuel : Nat) : Option GofileOutcome × List NetEffect :=
  match w.meta with
  | Except.error e => (some (GofileOutcome.errorMsg e), [NetEffect.metaFetch])
  | Except.ok (total_size, file_name) =>
    match waitLoop (download_thread w.dlOk).completeSet fuel with
    | none => (none, [NetEffect.metaFetch, NetEffect.dlStart])
    | some _ =>
      if downloadedFinal w.dlOk total_size w.dlSamples = -1 then
        (some (GofileOutcome.errorMsg "Download failed"),
         [NetEffect.metaFetch, NetEffect.dlStart])
      else
        match w.server with
        | Except.error e =>
          (some (GofileOutcome.errorMsg e),
           [NetEffect.metaFetch, NetEffect.dlStart, NetEffect.serverFetch])
        | Except.ok _server =>
          let uw := upload_thread w.upload
          let effs := [NetEffect.metaFetch, NetEffect.dlStart,
                       NetEffect.serverFetch, NetEffect.upPost]
          match waitLoop uw.completeSet fuel with
          | none => (none, effs)
          | some _ =>
            (some (GofileOutcome.errorMsg
                    "AttributeError: Thread object has no attribute result"), effs)

/-- `handle_gofile` (main.py lines 225-452): the authorization check
(line 230), the missing-argument check (line 240), joining the arguments
into the link (line 247), the link validation (line 250), then the try
block.  Returns the outcome (or `none` if still polling after `fuel`
polls) and the list of I/O calls made. -/
def handle_gofile (st : AdminState) (uid : Ident) (args : List String)
    (w : World) (fuel : Nat) : Option GofileOutcome × List NetEffect :=
  if uid ∉ st.admins then (some GofileOutcome.accessDenied, [])
  else if args = [] then (some GofileOutcome.usage, [])
  else if megaLinkValid (String.intercalate " " args) = false then
    (some GofileOutcome.invalidLink, [])
  else gofileTry w fuel

/-- Concrete environment for witnesses: a transfer whose download fails. -/
def dlFailWorld : World :=
  { meta := Except.ok (1000, "movie.mkv"), dlOk := false, dlSamples := [100, 500],
    server := Except.ok "store1", fileSize := 1000,
    upload := UploadNet.body "ok" (some "https://gofile.io/d/XYZ") none }

/-- Concrete environment: download succeeds, the upload POST returns HTTP
200 with a JSON body whose `status` is not "ok" and whose `data.message`
is "quota exceeded". -/
def badStatusWorld : World :=
  { meta := Except.ok (1000, "movie.mkv"), dlOk := true, dlSamples := [1000],
    server := Except.ok "store1", fileSize := 1000,
    upload := UploadNet.body "error" none (some "quota exceeded") }

/-- A wait loop whose completion event is never set never exits, under any
poll bound. -/
theorem waitLoop_false_eq_none (n : Nat) : waitLoop false n = none := by
  induction n with
  | zero => rfl
  | succ k ih => simpa [waitLoop] using ih


/-- Claim C5: for every identity i, `isAuthorized` returns true exactly when
i is the main admin or i is a delegated (regular) admin, provided the store
has its intended shape; and in the initial state the delegated set is empty
and the main admin is authorized. -/
theorem isAuthorized_iff_super_or_delegated (mainId : Ident) (s : AdminState)
    (hinv : AdminInv mainId s) :
    (∀ i : Ident, isAuthorized s i = true ↔ (i = mainId ∨ i ∈ s.additional)) ∧
    (initialAdminState mainId).additional = ∅ ∧
    isAuthorized (initialAdminState mainId) mainId = true := by
  refine ⟨?_, rfl, ?_⟩
  · intro i
    rw [isAuthorized, decide_eq_true_iff, hinv.1]
    simp
  · rw [isAuthorized, decide_eq_true_iff]
    simp [initialAdminState]

/-- Witness for C5 at mainId = 7 in the initial state. -/
theorem isAuthorized_iff_super_or_delegated_witness :
    AdminInv 7 (initialAdminState 7) ∧
    (isAuthorized (initialAdminState 7) 7 = true ↔
      ((7 : Ident) = 7 ∨ (7 : Ident) ∈ (initialAdminState 7).additional)) := by
  have hinv : AdminInv 7 (initialAdminState 7) := by
    constructor
    · simp [initialAdminState]
    · simp [initialAdminState]
  exact ⟨hinv, (isAuthorized_iff_super_or_delegated 7 _ hinv).1 7⟩

/-- Claim C7: a requester that is not the main admin is always denied by
`add_admin`, with the admin store left unchanged, whatever the target. -/
theorem add_admin_nonsuper_denied (mainId r : Ident) (arg : Option Ident)
    (s : AdminState) (h : r ≠ mainId) :
    add_admin mainId r arg s = (AddAdminResult.denied, s) := by
  simp [add_admin, h]

/-- Witness for C7: requester 2 against main admin 1. -/
theorem add_admin_nonsuper_denied_witness :
    (2 : Ident) ≠ 1 ∧
    add_admin 1 2 (some 3) (initialAdminState 1) =
      (AddAdminResult.denied, initialAdminState 1) :=
  ⟨by decide, add_admin_nonsuper_denied 1 2 (some 3) (initialAdminState 1) (by decide)⟩

/-- Claim C8: any removal attempt targeting the main admin is refused
(the `removed` outcome is impossible) and leaves the store unchanged,
whoever the requester is — in particular a self-removal by the main
admin. -/
theorem remove_admin_super_target_refused (mainId r : Ident) (s : AdminState) :
    (remove_admin mainId r (some mainId) s).2 = s ∧
    (remove_admin mainId r (some mainId) s).1 ≠ RemoveAdminResult.removed := by
  by_cases h : r = mainId
  · subst h
    simp [remove_admin]
  · simp [remove_admin, h]

/-- Claim C10: both admin-set operations preserve the store invariant:
the full access set is the main admin together with the delegated set, and
the main admin is never a member of the delegated set. -/
theorem admin_ops_preserve_invariant (mainId r : Ident) (arg : Option Ident)
    (s : AdminState) (hinv : AdminInv mainId s) :
    AdminInv mainId (add_admin mainId r arg s).2 ∧
    AdminInv mainId (remove_admin mainId r arg s).2 := by
  obtain ⟨hadm, hnm⟩ := hinv
  constructor
  · show AdminInv mainId
      (if r ≠ mainId then (AddAdminResult.denied, s)
       else
         match arg with
         | none => (AddAdminResult.usage, s)
         | some target =>
           if target = mainId then (AddAdminResult.alreadyMain, s)
           else if target ∈ s.additional then (AddAdminResult.alreadyAdmin, s)
           else (AddAdminResult.added,
                 { admins := insert target s.admins,
                   additional := insert target s.additional })).2
    by_cases hr : r ≠ mainId
    · rw [if_pos hr]
      exact ⟨hadm, hnm⟩
    · rw [if_neg hr]
      cases arg with
      | none => exact ⟨hadm, hnm⟩
      | some t =>
        show AdminInv mainId
          (if t = mainId then (AddAdminResult.alreadyMain, s)
           else if t ∈ s.additional then (AddAdminResult.alreadyAdmin, s)
           else (AddAdminResult.added,
                 { admins := insert t s.admins,
                   additional := insert t s.additional })).2
        by_cases ht : t = mainId
        · rw [if_pos ht]
          exact ⟨hadm, hnm⟩
        · rw [if_neg ht]
          by_cases htm : t ∈ s.additional
          · rw [if_pos htm]
            exact ⟨hadm, hnm⟩
          · rw [if_neg htm]
            refine ⟨?_, ?_⟩
            · show insert t s.admins = {mainId} ∪ insert t s.additional
              rw [hadm, Finset.union_insert]
            · show mainId ∉ insert t s.additional
              rw [Finset.mem_insert]
              rintro (h | h)
              · exact ht h.symm
              · exact hnm h
  · show AdminInv mainId
      (if r ≠ mainId then (RemoveAdminResult.denied, s)
       else
         match arg with
         | none => (RemoveAdminResult.usage, s)
         | some target =>
           if target = mainId then (RemoveAdminResult.cannotRemoveMain, s)
           else if target ∉ s.additional then (RemoveAdminResult.notAdmin, s)
           else (RemoveAdminResult.removed,
                 { admins := s.admins.erase target,
                   additional := s.additional.erase target })).2
    by_cases hr : r ≠ mainId
    · rw [if_pos hr]
      exact ⟨hadm, hnm⟩
    · rw [if_neg hr]
      cases arg with
      | none => exact ⟨hadm, hnm⟩
      | some t =>
        show AdminInv mainId
          (if t = mainId then (RemoveAdminResult.cannotRemoveMain, s)
           else if t ∉ s.additional then (RemoveAdminResult.notAdmin, s)
           else (RemoveAdminResult.removed,
                 { admins := s.admins.erase t,
                   additional := s.additional.erase t })).2
        by_cases ht : t = mainId
        · rw [if_pos ht]
          exact ⟨hadm, hnm⟩
        · rw [if_neg ht]
          by_cases htm : t ∉ s.additional
          · rw [if_pos htm]
            exact ⟨hadm, hnm⟩
          · rw [if_neg htm]
            refine ⟨?_, ?_⟩
            · show s.admins.erase t = {mainId} ∪ s.additional.erase t
              rw [hadm, Finset.erase_union_distrib,
                Finset.erase_eq_of_not_mem (Finset.not_mem_singleton.mpr ht)]
            · show mainId ∉ s.additional.erase t
              rw [Finset.mem_erase]
              rintro ⟨-, h⟩
              exact hnm h

/-- Witness for C10: the main admin 1 adding and removing target 2 from the
initial state. -/
theorem admin_ops_preserve_invariant_witness :
    AdminInv 1 (initialAdminState 1) ∧
    AdminInv 1 (add_admin 1 1 (some 2) (initialAdminState 1)).2 ∧
    AdminInv 1 (remove_admin 1 1 (some 2) (initialAdminState 1)).2 := by
  have hinv : AdminInv 1 (initialAdminState 1) := by
    constructor
    · simp [initialAdminState]
    · simp [initialAdminState]
  exact ⟨hinv, (admin_ops_preserve_invariant 1 1 (some 2) _ hinv).1,
    (admin_ops_preserve_invariant 1 1 (some 2) _ hinv).2⟩

/-- Claim C6: for each percent p in 0, 25, 50, 75, 100 the rendered bar
contains exactly 20*p/100 filled glyphs and 20 - 20*p/100 empty glyphs
(20 glyphs in all, the filled run before the empty run), and the output
ends with the percent text followed by the percent sign; at p = 0 the bar
is all-empty and at p = 100 all-filled. -/
theorem progress_bar_glyph_counts (p : Nat) (hp : p ∈ [0, 25, 50, 75, 100]) :
    (create_progress_bar p 20).toList.count '⭐' = 20 * p / 100 ∧
    (create_progress_bar p 20).toList.count '☆' = 20 - 20 * p / 100 ∧
    (create_progress_bar p 20).toList =
      '[' :: ((List.replicate (20 * p / 100) '⭐' ++
        List.replicate (20 - 20 * p / 100) '☆') ++
        ']' :: ' ' :: ((toString p).toList ++ ['%'])) ∧
    ((toString p ++ "%").toList).isSuffixOf (create_progress_bar p 20).toList = true := by
  simp only [List.mem_cons, List.not_mem_nil, or_false] at hp
  rcases hp with rfl | rfl | rfl | rfl | rfl <;> decide

/-- Witness for C6 at p = 25. -/
theorem progress_bar_glyph_counts_witness :
    (25 : Nat) ∈ [0, 25, 50, 75, 100] ∧
    ((create_progress_bar 25 20).toList.count '⭐' = 20 * 25 / 100 ∧
     (create_progress_bar 25 20).toList.count '☆' = 20 - 20 * 25 / 100 ∧
     (create_progress_bar 25 20).toList =
       '[' :: ((List.replicate (20 * 25 / 100) '⭐' ++
         List.replicate (20 - 20 * 25 / 100) '☆') ++
         ']' :: ' ' :: ((toString 25).toList ++ ['%'])) ∧
     ((toString 25 ++ "%").toList).isSuffixOf (create_progress_bar 25 20).toList = true) :=
  ⟨by decide, progress_bar_glyph_counts 25 (by decide)⟩

/-- Claim C4: the sample Mega link passes validation; the http variant and
the foreign host fail it; validation is exactly the accepted-prefix test;
and for any authorized user and nonempty argument list whose joined link
fails validation, `handle_gofile` replies invalid-link having made no
network call at all. -/
theorem invalid_link_rejected_before_io :
    megaLinkValid "https://mega.nz/file/abc" = true ∧
    megaLinkValid "http://mega.nz/file/abc" = false ∧
    megaLinkValid "https://example.com/x" = false ∧
    (∀ (st : AdminState) (uid : Ident) (args : List String) (w : World) (fuel : Nat),
      uid ∈ st.admins → args ≠ [] →
      megaLinkValid (String.intercalate " " args) = false →
      handle_gofile st uid args w fuel = (some GofileOutcome.invalidLink, [])) := by
  refine ⟨by decide, by decide, by decide, ?_⟩
  intro st uid args w fuel hauth hargs hlink
  simp [handle_gofile, hauth, hargs, hlink]

/-- Witness for C4: authorized user 1 sending a non-Mega link. -/
theorem invalid_link_rejected_before_io_witness :
    (1 : Ident) ∈ (initialAdminState 1).admins ∧
    (["https://example.com/x"] : List String) ≠ [] ∧
    megaLinkValid (String.intercalate " " ["https://example.com/x"]) = false ∧
    handle_gofile (initialAdminState 1) 1 ["https://example.com/x"] dlFailWorld 3 =
      (some GofileOutcome.invalidLink, []) :=
  ⟨by decide, by decide, by decide,
   invalid_link_rejected_before_io.2.2.2 (initialAdminState 1) 1
     ["https://example.com/x"] dlFailWorld 3 (by decide) (by decide) (by decide)⟩

/-- Claim C1 (code bug witness): with admin 1 sending a valid link and the
Mega download raising, the pipeline hangs instead of failing.  The worker's
except branch dies at line 295's `with lock:` (an `asyncio.Lock` has no
synchronous context-manager protocol) before the sentinel write at 296 and
the `set()` at 297, so the shared counter never holds -1, the completion
event is never set, the wait loop never exits, and the handler produces no
outcome at all — in particular never the "Download failed" error the claim
requires — with only the metadata fetch and the download start ever
performed, whatever the number of polls. -/
theorem download_failure_hangs_pipeline (fuel : Nat) :
    (download_thread dlFailWorld.dlOk).sentinelWritten = false ∧
    (download_thread dlFailWorld.dlOk).completeSet = false ∧
    downloadedFinal dlFailWorld.dlOk 1000 dlFailWorld.dlSamples ≠ -1 ∧
    waitLoop (download_thread dlFailWorld.dlOk).completeSet fuel = none ∧
    handle_gofile (initialAdminState 1) 1 ["https://mega.nz/file/abc"]
      dlFailWorld fuel = (none, [NetEffect.metaFetch, NetEffect.dlStart]) := by
  have hc : (download_thread dlFailWorld.dlOk).completeSet = false := rfl
  have hw : waitLoop (download_thread dlFailWorld.dlOk).completeSet fuel = none := by
    rw [hc]
    exact waitLoop_false_eq_none fuel
  refine ⟨rfl, hc, by decide, hw, ?_⟩
  have hrest : handle_gofile (initialAdminState 1) 1 ["https://mega.nz/file/abc"]
      dlFailWorld fuel = gofileTry dlFailWorld fuel := by
    have h1 : ¬((1 : Ident) ∉ (initialAdminState 1).admins) := by decide
    have h2 : (["https://mega.nz/file/abc"] : List String) ≠ [] := by decide
    have h3 : megaLinkValid (String.intercalate " " ["https://mega.nz/file/abc"]) =
        true := by decide
    simp [handle_gofile, h1, h2, h3]
  rw [hrest]
  have hm : dlFailWorld.meta = Except.ok (1000, "movie.mkv") := rfl
  simp [gofileTry, hm, hw]

set_option maxRecDepth 10000

/-- Claim C3 counterexample: with the observed byte count taking every
value from 0 to 1000 against a declared total of 1000, the reporter emits
no edit at percent 0 — the first sample yields progress 0, which equals
the initial last-reported value 0, so the edit condition
`progress != last_update` (main.py line 320) fails; the claimed edit at
percent 0 therefore never happens. -/
theorem download_edits_missing_zero :
    (0 : Nat) ∉ (downloadPoll 1000 (List.range 1001)).1 := by decide

/-- Claim C3 amended: with the observed byte count taking every value from
0 to 1000 against a declared total of 1000, the reporter emits edits at
exactly the percents 5, 10, ..., 100, in increasing order and each exactly
once; percent 0 gets no edit because the last-reported value starts at 0
(the 0 percent bar appears only in the initial status message, which is a
fresh reply, not a reporter edit). -/
theorem download_edits_five_multiples_exactly :
    (downloadPoll 1000 (List.range 1001)).1 =
      [5, 10, 15, 20, 25, 30, 35, 40, 45, 50,
       55, 60, 65, 70, 75, 80, 85, 90, 95, 100] := by decide

/-- Claim C2 (code bug witness): for a transfer whose upload POST returns
HTTP 200 with a body whose status is "error" and whose data.message is
"quota exceeded", the pipeline never produces any outcome: the upload
worker's only `upload_complete.set()` sits in its except branch (main.py
line 392) and never runs after a successful POST, so the wait loop of
lines 403-406 never exits and the status check of lines 425-427 is
unreachable — no UploadFailed error carrying the message (and no
destination link) is ever reported, whatever the number of polls.  (Even
were the loop to exit, line 424 calls `.result()` on a `threading.Thread`,
which has no such method.) -/
theorem upload_bad_status_never_surfaces (fuel : Nat) :
    (upload_thread badStatusWorld.upload).completeSet = false ∧
    (handle_gofile (initialAdminState 1) 1 ["https://mega.nz/file/abc"]
      badStatusWorld fuel).1 = none := by
  refine ⟨rfl, ?_⟩
  have hrest : handle_gofile (initialAdminState 1) 1 ["https://mega.nz/file/abc"]
      badStatusWorld fuel = gofileTry badStatusWorld fuel := by
    have h1 : ¬((1 : Ident) ∉ (initialAdminState 1).admins) := by decide
    have h2 : (["https://mega.nz/file/abc"] : List String) ≠ [] := by decide
    have h3 : megaLinkValid (String.intercalate " " ["https://mega.nz/file/abc"]) =
        true := by decide
    simp [handle_gofile, h1, h2, h3]
  rw [hrest]
  cases fuel with
  | zero => rfl
  | succ n =>
    simp [gofileTry, badStatusWorld, download_thread, waitLoop, downloadedFinal,
      downloadPoll, downloadPollGo, upload_thread, waitLoop_false_eq_none]

/-- Claim C9 counterexample: at a concrete failing upload (the POST raises
a connection error) the completion event is not set — the worker's except
branch dies at line 390's `with lock:` before reaching the `set()` at line
392 — and the wait loop does not exit even then; so the event is not set
in the worker's exception branch, contrary to the claim, and the loop does
not terminate when the worker fails. -/
theorem upload_completion_unset_on_exception :
    (upload_thread (UploadNet.raised "ConnectionError")).completeSet = false ∧
    waitLoop (upload_thread (UploadNet.raised "ConnectionError")).completeSet 5 =
      none :=
  ⟨rfl, rfl⟩

/-- Claim C9 amended: the upload completion event is never set for any
worker outcome — the success branch returns the body without signalling,
and the exception branch crashes at line 390's `with lock:` before its
`set()` call — so the wait loop never observes a completion signal and
never terminates, for successful uploads (as the claim said) and for
failing ones alike, however long it polls. -/
theorem upload_completion_never_signaled :
    ∀ (net : UploadNet) (fuel : Nat),
      (upload_thread net).completeSet = false ∧
      waitLoop (upload_thread net).completeSet fuel = none := by
  intro net fuel
  have h : (upload_thread net).completeSet = false := by
    cases net <;> rfl
  refine ⟨h, ?_⟩
  rw [h]
  exact waitLoop_false_eq_none fuel
